import Mathlib

/-!
Verification of the reconciliation and analytics engine of the `analyzeap`
repository (`src/app.py`).  The pandas DataFrames of the source are embedded
as lists of typed records; numeric columns are rationals (every division in
the source is zero-guarded except where noted, and non-finite or absent
values are tracked with `Option`, `none` meaning NaN-free column absence or a
non-finite float).  Functions keep the names of the Python functions they
embed.
-/

namespace Analyzeap

attribute [local semireducible] Rat.add Rat.mul Rat.inv Rat.sub Rat.ofScientific

/-- Floor of a rational, written with `Int.fdiv` so that concrete pipeline
outputs evaluate by kernel reduction. -/
def ratFloor (q : ℚ) : ℤ := Int.fdiv q.num (q.den : ℤ)

/-- Characters of Python `str.lower()` applied to a brand string. -/
def lowerStr (s : String) : String := String.mk (s.data.map Char.toLower)

/-- Python `.replace(' ', '').replace('_', '')` on a brand string. -/
def stripSpaceUnderscore (s : String) : String :=
  String.mk (s.data.filter (fun c => !(decide (c = ' ') || decide (c = '_'))))

/-- Does the character list `hay` start with `needle`? -/
def startsWithCh : List Char → List Char → Bool
  | _, [] => true
  | [], _ :: _ => false
  | a :: hs, b :: ns => decide (a = b) && startsWithCh hs ns

/-- Python substring containment (`needle in hay`) on character lists. -/
def containsCh (needle : List Char) : List Char → Bool
  | [] => needle.isEmpty
  | c :: t => startsWithCh (c :: t) needle || containsCh needle t

/-- Python substring containment on strings. -/
def containsSub (s sub : String) : Bool := containsCh sub.data s.data

/-- True when Python `str(x).strip()` is falsy, i.e. the string holds only
whitespace (missing URLs are modelled as the empty string). -/
def isBlank (s : String) : Bool :=
  s.data.all (fun c =>
    decide (c = ' ') || decide (c = '\t') || decide (c = '\n') || decide (c = '\r'))

/-- Insert `a` in front of the first element `b` of `l` with `le a b`. -/
def insertLe (le : α → α → Bool) (a : α) : List α → List α
  | [] => [a]
  | b :: t => if le a b then a :: b :: t else b :: insertLe le a t

/-- Insertion sort by the boolean comparison `le`; embeds every
`sort_values` / sorted-`groupby` ordering of the source deterministically. -/
def sortBy (le : α → α → Bool) : List α → List α
  | [] => []
  | a :: t => insertLe le a (sortBy le t)

/-- First-occurrence deduplication of grouping keys. -/
def dedupKeys : List String → List String
  | [] => []
  | a :: t => a :: (dedupKeys t).filter (fun b => decide (b ≠ a))

/-- Lexicographic comparison of strings by character code. -/
def chLt : List Char → List Char → Bool
  | [], [] => false
  | [], _ :: _ => true
  | _ :: _, [] => false
  | a :: s, b :: t => if a = b then chLt s t else decide (a < b)

/-- Boolean string order used for `groupby` key sorting. -/
def strLeB (a b : String) : Bool := decide (a = b) || chLt a.data b.data

/-- Sorted unique grouping keys, as produced by `DataFrame.groupby`
(whose default is `sort=True`). -/
def sortedKeys (l : List String) : List String := sortBy strLeB (dedupKeys l)

/-- Linear-interpolation quantile of pandas `Series.quantile`: over `n`
sorted values the fractional index is `q * (n - 1)`, interpolated between
its floor and ceiling neighbours.  (On an empty column the source yields
NaN and every row comparison against it is False; the pipeline then has no
rows to flag, so returning 0 here is unobservable.) -/
def quantile (q : ℚ) (xs : List ℚ) : ℚ :=
  match sortBy (fun a b => decide (a ≤ b)) xs with
  | [] => 0
  | s =>
    let pos : ℚ := q * ((s.length : ℚ) - 1)
    let lo : ℕ := (ratFloor pos).toNat
    let a := s.getD lo 0
    let b := s.getD (lo + 1) a
    a + (pos - (lo : ℚ)) * (b - a)

/-- Python `int(...)` cast of `astype(int)`; the columns it is applied to are
whole-valued non-negative counts in the pipeline, where truncation toward
zero and `Int.floor` agree. -/
def pyInt (q : ℚ) : ℚ := ((ratFloor q : ℤ) : ℚ)

/-- One row of the processed product master (`process_product_master_df`),
restricted to the columns the reconciliation engine and query layer read. -/
structure ProductRecord where
  sku_id : String
  product_class_id : String
  brand : String
  product_name : String
  color_name : String
  color_tag : String
  size : String
  total_stock : ℚ
  product_url : String
  image_url : String
deriving DecidableEq

/-- One row of a normalized GA4 fact batch (`load_ga_sales`). -/
structure FactRecord where
  sku_id : String
  item_name : String
  views : ℚ
  add_to_cart : ℚ
  purchases : ℚ
  revenue : ℚ
deriving DecidableEq

/-- One row of the merged analysis table.  Derived, flag, previous and delta
columns are `Option`-valued: `none` models the column being absent from the
DataFrame (it is only ever added by the corresponding pipeline step). -/
structure MergedRecord where
  sku_id : String
  product_class_id : String
  brand : String
  product_name : String
  color_name : String
  color_tag : String
  size : String
  total_stock : ℚ
  product_url : String
  image_url : String
  item_name : String
  views : ℚ
  add_to_cart : ℚ
  purchases : ℚ
  revenue : ℚ
  cvr : Option ℚ := none
  cart_rate : Option ℚ := none
  stock_efficiency : Option ℚ := none
  is_problem : Option Bool := none
  is_opportunity : Option Bool := none
  prev_views : Option ℚ := none
  prev_add_to_cart : Option ℚ := none
  prev_purchases : Option ℚ := none
  prev_revenue : Option ℚ := none
  delta_views : Option ℚ := none
  delta_add_to_cart : Option ℚ := none
  delta_purchases : Option ℚ := none
  delta_revenue : Option ℚ := none
  delta_views_pct : Option ℚ := none
  delta_add_to_cart_pct : Option ℚ := none
  delta_purchases_pct : Option ℚ := none
  delta_revenue_pct : Option ℚ := none
  prev_cvr : Option ℚ := none
  delta_cvr : Option ℚ := none
deriving DecidableEq

/-- All brands' fact batches concatenated in dict order (`pd.concat(ga_list)`;
empty batches contribute no rows, so the `len > 0` filter is absorbed). -/
def combinedFacts (ga : List (String × List FactRecord)) : List FactRecord :=
  (ga.map (fun b => b.2)).flatten

/-- True when at least one brand batch is non-empty: the emptiness check
(`if not ga_list`) guarding both merge functions. -/
def hasFacts (ga : List (String × List FactRecord)) : Bool :=
  ga.any (fun b => !b.2.isEmpty)

/-- Sum of one numeric fact column over the rows with the given SKU: the
`groupby('sku_id')` sum, seen through the left join with `fillna(0)`. -/
def factSum (facts : List FactRecord) (sku : String) (f : FactRecord → ℚ) : ℚ :=
  ((facts.filter (fun x => decide (x.sku_id = sku))).map f).sum

/-- First `item_name` among the SKU's fact rows (`groupby` aggregation
`first`), empty when the SKU has no facts. -/
def factFirstName (facts : List FactRecord) (sku : String) : String :=
  (((facts.filter (fun x => decide (x.sku_id = sku))).map FactRecord.item_name).head?).getD ""

/-- One row of `pm.merge(ga, on='sku_id', how='left')` with the numeric fact
columns filled to 0 when no fact matches the product's SKU. -/
def joinRow (facts : List FactRecord) (p : ProductRecord) : MergedRecord :=
  { sku_id := p.sku_id
    product_class_id := p.product_class_id
    brand := p.brand
    product_name := p.product_name
    color_name := p.color_name
    color_tag := p.color_tag
    size := p.size
    total_stock := p.total_stock
    product_url := p.product_url
    image_url := p.image_url
    item_name := factFirstName facts p.sku_id
    views := factSum facts p.sku_id FactRecord.views
    add_to_cart := factSum facts p.sku_id FactRecord.add_to_cart
    purchases := factSum facts p.sku_id FactRecord.purchases
    revenue := factSum facts p.sku_id FactRecord.revenue }

/-- Brand slug lookup of `generate_product_url`: lower-case the brand, drop
spaces and underscores, then substring-match the four known brand names. -/
def brandSlug (brand : String) : String :=
  let raw := stripSpaceUnderscore (lowerStr brand)
  if containsSub raw "rady" then "rady"
  else if containsSub raw "cherimi" then "cherimi"
  else if containsSub raw "michell" || containsSub raw "macaron" then "michellmacaron"
  else if containsSub raw "solni" then "solni"
  else ""

/-- URL synthesis of `generate_product_url`: keep a non-blank URL, otherwise
build one from the brand slug and SKU, or leave it empty. -/
def generateProductUrl (r : MergedRecord) : String :=
  if !isBlank r.product_url then r.product_url
  else
    let slug := brandSlug r.brand
    if !(decide (slug = "")) && !(decide (r.sku_id = "")) then
      "https://mycolor.jp/" ++ slug ++ "/item/" ++ r.sku_id
    else ""

/-- Derived metrics of `merge_and_analyze`: CVR, cart rate and stock
efficiency, each division guarded by strict positivity of its denominator. -/
def addDerived (r : MergedRecord) : MergedRecord :=
  { r with
    cvr := some (if 0 < r.views then r.purchases / r.views * 100 else 0)
    cart_rate := some (if 0 < r.views then r.add_to_cart / r.views * 100 else 0)
    stock_efficiency := some (if 0 < r.total_stock then r.revenue / r.total_stock else 0) }

/-- Classification flags of `merge_and_analyze` for the given thresholds. -/
def addFlags (stockTh revTh viewsTh : ℚ) (r : MergedRecord) : MergedRecord :=
  { r with
    is_problem := some (decide (stockTh ≤ r.total_stock) && decide (r.revenue ≤ revTh))
    is_opportunity := some (decide (viewsTh ≤ r.views) && decide (r.total_stock ≤ 5)
      && decide (r.purchases < r.views * (5 / 100))) }

/-- Delta block of `merge_and_analyze` (step 9 of the spec) for one record:
previous values are per-SKU sums of the previous-slot facts, filled to 0 for
SKUs absent there. -/
def addDeltas (prevFacts : List FactRecord) (r : MergedRecord) : MergedRecord :=
  let pv := factSum prevFacts r.sku_id FactRecord.views
  let pc := factSum prevFacts r.sku_id FactRecord.add_to_cart
  let pp := factSum prevFacts r.sku_id FactRecord.purchases
  let pr := factSum prevFacts r.sku_id FactRecord.revenue
  let pct : ℚ → ℚ → ℚ := fun cur prev =>
    if 0 < prev then (cur - prev) / prev * 100 else if 0 < cur then 100 else 0
  let prevCvr : ℚ := if 0 < pv then pp / pv * 100 else 0
  { r with
    prev_views := some pv
    prev_add_to_cart := some pc
    prev_purchases := some pp
    prev_revenue := some pr
    delta_views := some (r.views - pv)
    delta_add_to_cart := some (r.add_to_cart - pc)
    delta_purchases := some (r.purchases - pp)
    delta_revenue := some (r.revenue - pr)
    delta_views_pct := some (pct r.views pv)
    delta_add_to_cart_pct := some (pct r.add_to_cart pc)
    delta_purchases_pct := some (pct r.purchases pp)
    delta_revenue_pct := some (pct r.revenue pr)
    prev_cvr := some prevCvr
    delta_cvr := some (r.cvr.getD 0 - prevCvr) }

/-- Joined row after URL synthesis (`merged['product_url'] = merged.apply(generate_product_url)`). -/
def urlRow (facts : List FactRecord) (p : ProductRecord) : MergedRecord :=
  let r := joinRow facts p
  { r with product_url := generateProductUrl r }

/-- Joined table of `merge_and_analyze` after URL synthesis and derived
metrics, before flagging; rows are in product-master order. -/
def derivedTable (pm : List ProductRecord) (ga : List (String × List FactRecord)) :
    List MergedRecord :=
  pm.map (fun p => addDerived (urlRow (combinedFacts ga) p))

/-- Stock threshold: 70th percentile of `total_stock` over the full table. -/
def stockThreshold (pm : List ProductRecord) (ga : List (String × List FactRecord)) : ℚ :=
  quantile (7 / 10) ((derivedTable pm ga).map MergedRecord.total_stock)

/-- Revenue threshold: 30th percentile of `revenue` over the full table. -/
def revenueThreshold (pm : List ProductRecord) (ga : List (String × List FactRecord)) : ℚ :=
  quantile (3 / 10) ((derivedTable pm ga).map MergedRecord.revenue)

/-- Views threshold: 70th percentile of `views` over the full table. -/
def viewsThreshold (pm : List ProductRecord) (ga : List (String × List FactRecord)) : ℚ :=
  quantile (7 / 10) ((derivedTable pm ga).map MergedRecord.views)

/-- Fully flagged table of `merge_and_analyze`: thresholds and flags are
computed on the complete joined table, before the excluded brand is removed. -/
def flaggedTable (pm : List ProductRecord) (ga : List (String × List FactRecord)) :
    List MergedRecord :=
  (derivedTable pm ga).map
    (addFlags (stockThreshold pm ga) (revenueThreshold pm ga) (viewsThreshold pm ga))

/-- Pure result of `merge_and_analyze`: flagging, then removal of the
hardcoded excluded brand, then (when previous facts exist) the delta block. -/
def mergeResult (pm : List ProductRecord)
    (ga gaPrev : List (String × List FactRecord)) : List MergedRecord :=
  let filtered := (flaggedTable pm ga).filter (fun r => decide (r.brand ≠ "Regalect"))
  if hasFacts gaPrev then filtered.map (addDeltas (combinedFacts gaPrev)) else filtered

/-- The fully processed row of `merge_and_analyze` for one product (used to
decompose membership in `mergeResult`). -/
def mergeRow (pm : List ProductRecord) (ga gaPrev : List (String × List FactRecord))
    (p : ProductRecord) : MergedRecord :=
  let base := addFlags (stockThreshold pm ga) (revenueThreshold pm ga) (viewsThreshold pm ga)
    (addDerived (urlRow (combinedFacts ga) p))
  if hasFacts gaPrev then addDeltas (combinedFacts gaPrev) base else base

/-- One row of a channel fact batch (only copied around by the period store;
its contents are owned by the excluded channel-breakdown collaborator). -/
structure ChannelRow where
  channel : String
  source : String
  sessions : ℚ
  users : ℚ
  purchases : ℚ
  revenue : ℚ
deriving DecidableEq

/-- Per-period slot `data_store['periods_data'][period_type]`. -/
structure PeriodSlot where
  ga_sales : List (String × List FactRecord)
  ga_sales_previous : List (String × List FactRecord)
  channel_data : List (String × List ChannelRow)
  merged_data : Option (List MergedRecord)
  merged_data_previous : Option (List MergedRecord)
deriving DecidableEq

/-- The process-wide `data_store`: active (displayed) fields plus the three
independent period slots of `periods_data`. -/
structure DataStore where
  product_master : Option (List ProductRecord)
  ga_sales : List (String × List FactRecord)
  ga_sales_previous : List (String × List FactRecord)
  channel_data : List (String × List ChannelRow)
  merged_data : Option (List MergedRecord)
  merged_data_previous : Option (List MergedRecord)
  current_period : String
  pYesterday : PeriodSlot
  pWeekly : PeriodSlot
  pThreeDays : PeriodSlot
deriving DecidableEq

/-- Dictionary lookup `data_store['periods_data'][pt]`; the dict always holds
exactly the keys yesterday, weekly and 3days. -/
def getPeriodSlot (s : DataStore) (pt : String) : Option PeriodSlot :=
  if pt = "yesterday" then some s.pYesterday
  else if pt = "weekly" then some s.pWeekly
  else if pt = "3days" then some s.pThreeDays
  else none

/-- Replace one period slot (no-op for a key outside the fixed three). -/
def setPeriodSlot (s : DataStore) (pt : String) (x : PeriodSlot) : DataStore :=
  if pt = "yesterday" then { s with pYesterday := x }
  else if pt = "weekly" then { s with pWeekly := x }
  else if pt = "3days" then { s with pThreeDays := x }
  else s

/-- `switch_period_data`: copy the chosen period slot into the active store
fields and return True, or return False leaving the store untouched when the
period type is not a key of `periods_data`. -/
def switch_period_data (s : DataStore) (pt : String) : Bool × DataStore :=
  match getPeriodSlot s pt with
  | none => (false, s)
  | some slot =>
    (true, { s with
      ga_sales := slot.ga_sales
      ga_sales_previous := slot.ga_sales_previous
      channel_data := slot.channel_data
      merged_data := slot.merged_data
      merged_data_previous := slot.merged_data_previous
      current_period := pt })

/-- Python dict assignment `d[k] = v`: replace in place when the key exists,
append otherwise. -/
def dictSet (l : List (String × α)) (k : String) (v : α) : List (String × α) :=
  if l.any (fun p => decide (p.1 = k)) then
    l.map (fun p => if p.1 = k then (k, v) else p)
  else l ++ [(k, v)]

/-- Which fact snapshot of a period slot is being replaced. -/
inductive FactSlot
  | current
  | previous
deriving DecidableEq

/-- Period Store setFacts: the inline assignments
`data_store['periods_data'][pt]['ga_sales'][brand] = batch` (and the
`ga_sales_previous` counterpart) performed by the scheduled update. -/
def set_period_facts (s : DataStore) (pt brand : String) (sl : FactSlot)
    (batch : List FactRecord) : DataStore :=
  match getPeriodSlot s pt with
  | none => s
  | some slot =>
    let slot2 := match sl with
      | FactSlot.current => { slot with ga_sales := dictSet slot.ga_sales brand batch }
      | FactSlot.previous =>
          { slot with ga_sales_previous := dictSet slot.ga_sales_previous brand batch }
    setPeriodSlot s pt slot2

/-- `merge_and_analyze` as a transform of the active store: the analysis
result (`none` when the preconditions fail, in which case nothing is
written) together with the new store. -/
def merge_and_analyze (s : DataStore) : Option (List MergedRecord) × DataStore :=
  match s.product_master with
  | none => (none, s)
  | some pm =>
    if hasFacts s.ga_sales then
      let m := mergeResult pm s.ga_sales s.ga_sales_previous
      (some m, { s with merged_data := some m })
    else (none, s)

/-- Join of `merge_and_analyze_for_period`: the same left join, with the
three count columns cast back to int. -/
def periodJoinRow (facts : List FactRecord) (p : ProductRecord) : MergedRecord :=
  let r := joinRow facts p
  { r with
    views := pyInt r.views
    add_to_cart := pyInt r.add_to_cart
    purchases := pyInt r.purchases }

/-- `merge_and_analyze_for_period`: the per-period reconcile.  It performs
only the brand-combine, group-by-SKU aggregation and left join — no URL
synthesis, no derived metrics, no thresholds or flags, no excluded-brand
removal and no deltas — and stores the result in the period's slot. -/
def merge_and_analyze_for_period (s : DataStore) (pt : String) :
    Option (List MergedRecord) × DataStore :=
  match getPeriodSlot s pt with
  | none => (none, s)
  | some slot =>
    match s.product_master with
    | none => (none, s)
    | some pm =>
      if hasFacts slot.ga_sales then
        let merged := pm.map (periodJoinRow (combinedFacts slot.ga_sales))
        let slot1 := { slot with merged_data := some merged }
        let prevJoined := pm.map (periodJoinRow (combinedFacts slot.ga_sales_previous))
        let slot2 :=
          if hasFacts slot.ga_sales_previous then
            { slot1 with merged_data_previous := some prevJoined }
          else slot1
        (some merged, setPeriodSlot s pt slot2)
      else (none, s)

/-- Optional brand filter shared by the query functions: Python
`if brand and brand != 'all'` (absent brands are modelled as `""`). -/
def brandFilter (brand : String) (df : List MergedRecord) : List MergedRecord :=
  if brand ≠ "" ∧ brand ≠ "all" then df.filter (fun r => decide (r.brand = brand)) else df

/-- `get_problem_products`: flagged rows, optional brand filter, sorted by
total_stock descending, truncated to the limit. -/
def get_problem_products (df : List MergedRecord) (brand : String) (limit : ℕ) :
    List MergedRecord :=
  let f := brandFilter brand (df.filter (fun r => r.is_problem.getD false))
  (sortBy (fun a b => decide (b.total_stock ≤ a.total_stock)) f).take limit

/-- `get_opportunity_products`: flagged rows, optional brand filter, sorted
by views descending, truncated to the limit. -/
def get_opportunity_products (df : List MergedRecord) (brand : String) (limit : ℕ) :
    List MergedRecord :=
  let f := brandFilter brand (df.filter (fun r => r.is_opportunity.getD false))
  (sortBy (fun a b => decide (b.views ≤ a.views)) f).take limit

/-- `get_top_performers`: optional brand filter, sorted by revenue
descending, truncated to the limit. -/
def get_top_performers (df : List MergedRecord) (brand : String) (limit : ℕ) :
    List MergedRecord :=
  (sortBy (fun a b => decide (b.revenue ≤ a.revenue)) (brandFilter brand df)).take limit

/-- One output row of `get_brand_summary`.  Previous/delta columns exist only
when the merged table carries previous-period data. -/
structure BrandSummary where
  brand : String
  sku_count : ℚ
  total_stock : ℚ
  total_views : ℚ
  total_add_to_cart : ℚ
  total_purchases : ℚ
  total_revenue : ℚ
  problem_count : ℚ
  opportunity_count : ℚ
  overall_cvr : ℚ := 0
  prev_total_revenue : Option ℚ := none
  prev_total_views : Option ℚ := none
  prev_total_add_to_cart : Option ℚ := none
  prev_total_purchases : Option ℚ := none
  delta_revenue : Option ℚ := none
  delta_revenue_pct : Option ℚ := none
  delta_views : Option ℚ := none
  delta_views_pct : Option ℚ := none
  delta_purchases : Option ℚ := none
  delta_purchases_pct : Option ℚ := none
  delta_add_to_cart : Option ℚ := none
  delta_add_to_cart_pct : Option ℚ := none
deriving DecidableEq

/-- Brand-aggregate delta percent of `get_brand_summary`: note the
else-branch is 0 even when the current total is positive. -/
def summaryPct (cur prev : ℚ) : ℚ :=
  if 0 < prev then (cur - prev) / prev * 100 else 0

/-- One `get_brand_summary` row for brand `b` over the (already
Regalect-filtered) table `d`. -/
def brandSummaryRow (d : List MergedRecord) (hasPrev : Bool) (b : String) : BrandSummary :=
  let g := d.filter (fun r => decide (r.brand = b))
  let tstock := (g.map MergedRecord.total_stock).sum
  let tviews := (g.map MergedRecord.views).sum
  let tcart := (g.map MergedRecord.add_to_cart).sum
  let tpurch := (g.map MergedRecord.purchases).sum
  let trev := (g.map MergedRecord.revenue).sum
  let base : BrandSummary :=
    { brand := b
      sku_count := (g.length : ℚ)
      total_stock := tstock
      total_views := tviews
      total_add_to_cart := tcart
      total_purchases := tpurch
      total_revenue := trev
      problem_count := ((g.filter (fun r => r.is_problem.getD false)).length : ℚ)
      opportunity_count := ((g.filter (fun r => r.is_opportunity.getD false)).length : ℚ)
      overall_cvr := if 0 < tviews then tpurch / tviews * 100 else 0 }
  if hasPrev then
    let pv := (g.map (fun r => r.prev_views.getD 0)).sum
    let pc := (g.map (fun r => r.prev_add_to_cart.getD 0)).sum
    let pp := (g.map (fun r => r.prev_purchases.getD 0)).sum
    let pr := (g.map (fun r => r.prev_revenue.getD 0)).sum
    { base with
      prev_total_revenue := some pr
      prev_total_views := some pv
      prev_total_add_to_cart := some pc
      prev_total_purchases := some pp
      delta_revenue := some (trev - pr)
      delta_revenue_pct := some (summaryPct trev pr)
      delta_views := some (tviews - pv)
      delta_views_pct := some (summaryPct tviews pv)
      delta_purchases := some (tpurch - pp)
      delta_purchases_pct := some (summaryPct tpurch pp)
      delta_add_to_cart := some (tcart - pc)
      delta_add_to_cart_pct := some (summaryPct tcart pc) }
  else base

/-- `get_brand_summary`: Regalect filter, group by brand (sorted keys), sums,
overall CVR recomputed from the summed totals, brand-level deltas. -/
def get_brand_summary (df : List MergedRecord) : List BrandSummary :=
  let d := df.filter (fun r => decide (r.brand ≠ "Regalect"))
  let hasPrev := d.any (fun r => r.prev_revenue.isSome)
  (sortedKeys (d.map MergedRecord.brand)).map (brandSummaryRow d hasPrev)

/-- Per-SKU detail entry of `get_pv_ranking`. -/
structure PvSku where
  color_name : String
  color_tag : String
  size : String
  views : ℚ
  add_to_cart : ℚ
  purchases : ℚ
  cvr : ℚ
  total_stock : ℚ
  delta_purchases : ℚ
  delta_purchases_pct : ℚ
  delta_add_to_cart : ℚ
  delta_cvr : ℚ
  prev_purchases : ℚ
deriving DecidableEq

/-- Build one per-SKU detail entry: counts through `int(...)`, a zero-guarded
per-SKU CVR, delta fields defaulting to 0 when their column is absent, and
the grey default for a blank color tag. -/
def pvSkuOf (r : MergedRecord) : PvSku :=
  { color_name := r.color_name
    color_tag := if r.color_tag = "" then "#888" else r.color_tag
    size := r.size
    views := pyInt r.views
    add_to_cart := pyInt r.add_to_cart
    purchases := pyInt r.purchases
    cvr := if 0 < r.views then r.purchases / r.views * 100 else 0
    total_stock := pyInt r.total_stock
    delta_purchases := pyInt (r.delta_purchases.getD 0)
    delta_purchases_pct := r.delta_purchases_pct.getD 0
    delta_add_to_cart := pyInt (r.delta_add_to_cart.getD 0)
    delta_cvr := r.delta_cvr.getD 0
    prev_purchases := pyInt (r.prev_purchases.getD 0) }

/-- One ranked group of `get_pv_ranking`. -/
structure PvGroup where
  product_class_id : String
  brand : String
  product_name : String
  image_url : String
  product_url : String
  views : ℚ
  add_to_cart : ℚ
  purchases : ℚ
  revenue : ℚ
  total_stock : ℚ
  cvr : Option ℚ
  purchase_rate : Option ℚ
  skus : List PvSku
deriving DecidableEq

/-- Pandas float ratio `p / v * 100` after `fillna(0)`: the NaN of 0/0
becomes 0, while a positive-over-zero division stays non-finite (`none`). -/
def pdRatio100 (p v : ℚ) : Option ℚ :=
  if v ≠ 0 then some (p / v * 100) else if p = 0 then some 0 else none

/-- One grouped row of `get_pv_ranking` for class `c` over its rows `g`:
`views` is the first row's representative value, the other metrics are sums,
and the group CVR divides the summed purchases by that first `views`. -/
def mkPvGroup (c : String) (g : List MergedRecord) : PvGroup :=
  let v := ((g.map MergedRecord.views).head?).getD 0
  let p := (g.map MergedRecord.purchases).sum
  { product_class_id := c
    brand := ((g.map MergedRecord.brand).head?).getD ""
    product_name := ((g.map MergedRecord.product_name).head?).getD ""
    image_url := ((g.map MergedRecord.image_url).head?).getD ""
    product_url := ((g.map MergedRecord.product_url).head?).getD ""
    views := v
    add_to_cart := (g.map MergedRecord.add_to_cart).sum
    purchases := p
    revenue := (g.map MergedRecord.revenue).sum
    total_stock := (g.map MergedRecord.total_stock).sum
    cvr := pdRatio100 p v
    purchase_rate := pdRatio100 p v
    skus := [] }

/-- Rows of one product class, in table order. -/
def classRows (df : List MergedRecord) (c : String) : List MergedRecord :=
  df.filter (fun r => decide (r.product_class_id = c))

/-- Sorted per-SKU detail list for one class (purchases descending). -/
def pvSkus (df : List MergedRecord) (c : String) : List PvSku :=
  (sortBy (fun a b => decide (b.purchases ≤ a.purchases)) (classRows df c)).map pvSkuOf

/-- `get_pv_ranking`: brand filter, group by product_class_id, keep exactly
the classes having some row with positive views, rank by the representative
views descending, truncate, and attach the per-SKU detail lists. -/
def get_pv_ranking (df0 : List MergedRecord) (brand : String) (limit : ℕ) :
    List PvGroup :=
  let df := brandFilter brand df0
  let groups := (sortedKeys (df.map MergedRecord.product_class_id)).map
    (fun c => mkPvGroup c (classRows df c))
  let kept := groups.filter (fun g =>
    df.any (fun r => decide (r.product_class_id = g.product_class_id) && decide (0 < r.views)))
  ((sortBy (fun a b => decide (b.views ≤ a.views)) kept).take limit).map
    (fun g => { g with skus := pvSkus df g.product_class_id })

/-- Output row of `get_anomalies` (missing optional columns default to 0). -/
structure AnomalyItem where
  sku_id : String
  brand : String
  product_name : String
  color_name : String
  size : String
  image_url : String
  product_url : String
  total_stock : ℚ
  views : ℚ
  prev_views : ℚ
  delta_views : ℚ
  delta_views_pct : ℚ
  purchases : ℚ
  prev_purchases : ℚ
  delta_purchases : ℚ
  delta_purchases_pct : ℚ
  revenue : ℚ
  prev_revenue : ℚ
  delta_revenue : ℚ
  delta_revenue_pct : ℚ
  cvr : ℚ
deriving DecidableEq

/-- Projection of a merged row onto the anomaly output columns. -/
def anomalyItemOf (r : MergedRecord) : AnomalyItem :=
  { sku_id := r.sku_id
    brand := r.brand
    product_name := r.product_name
    color_name := r.color_name
    size := r.size
    image_url := r.image_url
    product_url := r.product_url
    total_stock := r.total_stock
    views := r.views
    prev_views := r.prev_views.getD 0
    delta_views := r.delta_views.getD 0
    delta_views_pct := r.delta_views_pct.getD 0
    purchases := r.purchases
    prev_purchases := r.prev_purchases.getD 0
    delta_purchases := r.delta_purchases.getD 0
    delta_purchases_pct := r.delta_purchases_pct.getD 0
    revenue := r.revenue
    prev_revenue := r.prev_revenue.getD 0
    delta_revenue := r.delta_revenue.getD 0
    delta_revenue_pct := r.delta_revenue_pct.getD 0
    cvr := r.cvr.getD 0 }

/-- Weighted anomaly score 0.3·ΔPV% + 0.5·Δpurchases% + 0.2·Δrevenue%. -/
def riseScore (r : MergedRecord) : ℚ :=
  r.delta_views_pct.getD 0 * (3 / 10) + r.delta_purchases_pct.getD 0 * (5 / 10)
    + r.delta_revenue_pct.getD 0 * (2 / 10)

/-- `get_anomalies`: the rising and warning lists (empty when the delta
columns are absent), brand-filtered, score-ranked and truncated. -/
def get_anomalies (df : List MergedRecord) (brand : String) (limit : ℕ) :
    List AnomalyItem × List AnomalyItem :=
  if df.any (fun r => r.delta_views_pct.isSome) then
    let f := brandFilter brand df
    let rising := f.filter (fun r =>
      (decide (50 ≤ r.delta_views_pct.getD 0) && decide (50 ≤ r.views))
        || (decide (50 ≤ r.delta_purchases_pct.getD 0) && decide (3 ≤ r.purchases)))
    let warning := f.filter (fun r =>
      decide (0 < r.total_stock) &&
        ((decide (r.delta_views_pct.getD 0 ≤ -30) && decide (30 ≤ r.prev_views.getD 0))
          || (decide (r.delta_purchases_pct.getD 0 ≤ -30)
                && decide (2 ≤ r.prev_purchases.getD 0))))
    (((sortBy (fun a b => decide (riseScore b ≤ riseScore a)) rising).take limit).map anomalyItemOf,
     ((sortBy (fun a b => decide (riseScore a ≤ riseScore b)) warning).take limit).map anomalyItemOf)
  else ([], [])

/-! Concrete inputs used to instantiate the theorems below. -/

/-- Placeholder merged record used as the default of list lookups. -/
def dummyMerged : MergedRecord :=
  { sku_id := "", product_class_id := "", brand := "", product_name := ""
    color_name := "", color_tag := "", size := "", total_stock := 0
    product_url := "", image_url := "", item_name := ""
    views := 0, add_to_cart := 0, purchases := 0, revenue := 0 }

/-- Shorthand merged row for concrete query-layer tables. -/
def sampleMerged (sku cls b : String) (stock v atc p rev : ℚ) : MergedRecord :=
  { dummyMerged with
    sku_id := sku, product_class_id := cls, brand := b
    total_stock := stock, views := v, add_to_cart := atc, purchases := p, revenue := rev }

/-- Sample product (brand rady). -/
def prodA : ProductRecord :=
  { sku_id := "A1", product_class_id := "P1", brand := "rady", product_name := "dress"
    color_name := "red", color_tag := "#f00", size := "M", total_stock := 100
    product_url := "", image_url := "" }

/-- Sample product with no facts and zero stock. -/
def prodB : ProductRecord :=
  { prodA with sku_id := "B2", product_class_id := "P2", total_stock := 0 }

/-- Sample product of the excluded brand with a large stock. -/
def prodReg : ProductRecord :=
  { prodA with sku_id := "R9", product_class_id := "P9", brand := "Regalect", total_stock := 1000 }

/-- Sample product of brand rady with a small stock. -/
def prodC : ProductRecord :=
  { prodA with sku_id := "C3", product_class_id := "P3", total_stock := 10 }

/-- Current-period fact row for `prodA` (the spec scenario values). -/
def factA : FactRecord :=
  { sku_id := "A1", item_name := "dress", views := 200, add_to_cart := 10
    purchases := 1, revenue := 500 }

/-- Previous-period fact row for `prodA` (the spec scenario values). -/
def factAPrev : FactRecord :=
  { factA with views := 100, purchases := 1, revenue := 500 }

/-- Fact row whose SKU appears in no product record. -/
def factOrphan : FactRecord :=
  { factA with
    sku_id := "Z0"
    item_name := "ghost"
    views := 9
    add_to_cart := 1
    purchases := 1
    revenue := 70 }

/-- Empty period slot. -/
def emptySlot : PeriodSlot :=
  { ga_sales := [], ga_sales_previous := [], channel_data := []
    merged_data := none, merged_data_previous := none }

/-- Empty base store. -/
def baseStore : DataStore :=
  { product_master := none, ga_sales := [], ga_sales_previous := [], channel_data := []
    merged_data := none, merged_data_previous := none, current_period := "yesterday"
    pYesterday := emptySlot, pWeekly := emptySlot, pThreeDays := emptySlot }

/-- Store with a product master and 3-day current facts, for C1. -/
def c1store : DataStore :=
  { baseStore with
    product_master := some [prodA]
    pThreeDays := { emptySlot with ga_sales := [("rady", [factA])] } }

/-- Merged rows produced by the per-period reconcile on `c1store`. -/
def c1m : List MergedRecord :=
  ((merge_and_analyze_for_period c1store "3days").1).getD []

/-- Store produced by the per-period reconcile on `c1store`. -/
def c1s2 : DataStore := (merge_and_analyze_for_period c1store "3days").2

/-- Product master whose excluded-brand row skews the stock threshold. -/
def c2pm : List ProductRecord := [prodA, prodC, prodReg]

/-- Fact batches used with `c2pm`. -/
def c2ga : List (String × List FactRecord) := [("rady", [factA])]

/-- First record of the C2 witness output. -/
def c2r : MergedRecord := (mergeResult c2pm c2ga []).getD 0 dummyMerged

/-- Placeholder brand summary used as the default of list lookups. -/
def dummySummary : BrandSummary :=
  { brand := "", sku_count := 0, total_stock := 0, total_views := 0
    total_add_to_cart := 0, total_purchases := 0, total_revenue := 0
    problem_count := 0, opportunity_count := 0 }

/-- Brand-summary input of C3: one rady row with revenue 500 and a
previous-period total of 0. -/
def c3df : List MergedRecord :=
  [{ sampleMerged "A1" "P1" "rady" 100 200 10 1 500 with
      prev_views := some 0, prev_add_to_cart := some 0
      prev_purchases := some 0, prev_revenue := some 0 }]

/-- Summary row of the C3 witness. -/
def c3s : BrandSummary := (get_brand_summary c3df).getD 0 dummySummary

/-- Product master of the C4 witness (two distinct SKUs). -/
def c4pm : List ProductRecord := [prodA, prodB]

/-- Fact batches of the C4 witness, including an orphan SKU. -/
def c4ga : List (String × List FactRecord) := [("rady", [factA, factOrphan])]

/-- Product master of the C5/C6 witnesses. -/
def c5pm : List ProductRecord := [prodA, prodB]

/-- Current facts of the C5/C6 witnesses. -/
def c5ga : List (String × List FactRecord) := [("rady", [factA])]

/-- Previous facts of the C5 witness. -/
def c5prev : List (String × List FactRecord) := [("rady", [factAPrev])]

/-- Record of the C5 witness: the processed row of `prodA`. -/
def c5r : MergedRecord := (mergeResult c5pm c5ga c5prev).getD 0 dummyMerged

/-- Record of the C6 witness: the processed row of `prodB`
(no facts, zero stock). -/
def c6r : MergedRecord := (mergeResult c5pm c5ga []).getD 1 dummyMerged

/-- PV-ranking input of C8: one product class whose first SKU has zero views
while its second has positive views. -/
def c8df : List MergedRecord :=
  [sampleMerged "A1" "P1" "rady" 3 0 0 0 0,
   sampleMerged "A2" "P1" "rady" 1 5 1 2 100]

/-- First emitted PV-ranking group over `c8df`. -/
def c8g : PvGroup := (get_pv_ranking c8df "all" 50).getD 0
  { product_class_id := "", brand := "", product_name := "", image_url := ""
    product_url := "", views := 0, add_to_cart := 0, purchases := 0, revenue := 0
    total_stock := 0, cvr := none, purchase_rate := none, skus := [] }

/-- Store of the C9 witness, with distinguishable period slots. -/
def c9store : DataStore :=
  { baseStore with
    pWeekly := { emptySlot with
                 ga_sales := [("rady", [factA])]
                 merged_data := some [sampleMerged "A1" "P1" "rady" 100 200 10 1 500] }
    pThreeDays := { emptySlot with
                    ga_sales := [("cherimi", [factAPrev])]
                    merged_data := some [sampleMerged "B2" "P2" "cherimi" 0 7 0 0 0] } }

/-! Helper lemmas about the embedding. -/

theorem ratFloor_eq (q : ℚ) : ratFloor q = Int.floor q := by
  rw [Rat.floor_def, ratFloor, Int.fdiv_eq_ediv]
  exact_mod_cast Nat.zero_le q.den

theorem pyInt_mono {a b : ℚ} (h : a ≤ b) : pyInt a ≤ pyInt b := by
  unfold pyInt
  have hf : ratFloor a ≤ ratFloor b := by
    rw [ratFloor_eq, ratFloor_eq]
    exact Int.floor_le_floor h
  exact_mod_cast hf

theorem mem_insertLe {le : α → α → Bool} (a x : α) (l : List α) :
    x ∈ insertLe le a l ↔ x = a ∨ x ∈ l := by
  induction l with
  | nil => simp [insertLe]
  | cons b t ih =>
    by_cases h : le a b = true
    · simp [insertLe, h]
    · simp only [insertLe, if_neg h, List.mem_cons, ih]
      tauto

theorem mem_sortBy {le : α → α → Bool} (x : α) (l : List α) :
    x ∈ sortBy le l ↔ x ∈ l := by
  induction l with
  | nil => simp [sortBy]
  | cons a t ih => simp [sortBy, mem_insertLe, ih]

theorem pairwise_insertLe {r : α → α → Prop} {le : α → α → Bool}
    (h1 : ∀ x y, le x y = true → r x y) (h2 : ∀ x y, le x y = false → r y x)
    (htr : ∀ x y z, r x y → r y z → r x z) (a : α) :
    ∀ {l : List α}, l.Pairwise r → (insertLe le a l).Pairwise r := by
  intro l
  induction l with
  | nil => intro _; simp [insertLe]
  | cons b t ih =>
    intro hp
    rcases List.pairwise_cons.mp hp with ⟨hb, ht⟩
    by_cases h : le a b = true
    · simp only [insertLe, if_pos h]
      refine List.pairwise_cons.mpr ⟨?_, hp⟩
      intro x hx
      rcases List.mem_cons.mp hx with rfl | hxt
      · exact h1 _ _ h
      · exact htr _ _ _ (h1 _ _ h) (hb x hxt)
    · simp only [insertLe, if_neg h]
      refine List.pairwise_cons.mpr ⟨?_, ih ht⟩
      intro x hx
      rcases (mem_insertLe a x t).mp hx with rfl | hxt
      · exact h2 _ _ (by simpa using h)
      · exact hb x hxt

theorem pairwise_sortBy {r : α → α → Prop} {le : α → α → Bool}
    (h1 : ∀ x y, le x y = true → r x y) (h2 : ∀ x y, le x y = false → r y x)
    (htr : ∀ x y z, r x y → r y z → r x z) (l : List α) :
    (sortBy le l).Pairwise r := by
  induction l with
  | nil => simp [sortBy]
  | cons a t ih => exact pairwise_insertLe h1 h2 htr a ih

theorem mem_dedupKeys (a : String) (l : List String) : a ∈ dedupKeys l ↔ a ∈ l := by
  induction l with
  | nil => simp [dedupKeys]
  | cons b t ih =>
    by_cases hab : a = b <;> simp [dedupKeys, List.mem_filter, ih, hab]

theorem mem_sortedKeys (a : String) (l : List String) : a ∈ sortedKeys l ↔ a ∈ l := by
  simp [sortedKeys, mem_sortBy, mem_dedupKeys]

theorem head_getD_map_mem {α β : Type} {l : List α} (f : α → β) (d : β) (h : l ≠ []) :
    ∃ x ∈ l, ((l.map f).head?).getD d = f x := by
  cases l with
  | nil => exact absurd rfl h
  | cons a t => exact ⟨a, List.mem_cons_self a t, rfl⟩

theorem mem_flaggedTable {pm : List ProductRecord} {ga : List (String × List FactRecord)}
    {r : MergedRecord} (h : r ∈ flaggedTable pm ga) :
    ∃ p ∈ pm, r = addFlags (stockThreshold pm ga) (revenueThreshold pm ga)
      (viewsThreshold pm ga) (addDerived (urlRow (combinedFacts ga) p)) := by
  unfold flaggedTable derivedTable at h
  rw [List.map_map] at h
  obtain ⟨p, hp, hep⟩ := List.mem_map.mp h
  exact ⟨p, hp, hep.symm⟩

theorem mem_mergeResult {pm : List ProductRecord} {ga gaPrev : List (String × List FactRecord)}
    {r : MergedRecord} (h : r ∈ mergeResult pm ga gaPrev) :
    ∃ p ∈ pm, r = mergeRow pm ga gaPrev p ∧ r.brand ≠ "Regalect" := by
  by_cases hp : hasFacts gaPrev = true
  · simp only [mergeResult, hp, if_true] at h
    obtain ⟨r0, hr0, hre⟩ := List.mem_map.mp h
    obtain ⟨hr0f, hb⟩ := List.mem_filter.mp hr0
    obtain ⟨p, hpm, rfl⟩ := mem_flaggedTable hr0f
    refine ⟨p, hpm, ?_, ?_⟩
    · rw [← hre]; simp [mergeRow, hp]
    · rw [← hre]
      simpa [addDeltas] using of_decide_eq_true hb
  · simp only [mergeResult, hp, if_false, Bool.false_eq_true] at h
    obtain ⟨hr0f, hb⟩ := List.mem_filter.mp h
    obtain ⟨p, hpm, rfl⟩ := mem_flaggedTable hr0f
    refine ⟨p, hpm, ?_, of_decide_eq_true hb⟩
    simp [mergeRow, hp]

theorem brandFilter_subset {b : String} {df : List MergedRecord} {r : MergedRecord}
    (h : r ∈ brandFilter b df) : r ∈ df := by
  unfold brandFilter at h
  split at h
  · exact (List.mem_filter.mp h).1
  · exact h

theorem mem_problem_subset {df : List MergedRecord} {b : String} {lim : ℕ} {r : MergedRecord}
    (h : r ∈ get_problem_products df b lim) : r ∈ df := by
  unfold get_problem_products at h
  have h1 := List.mem_of_mem_take h
  rw [mem_sortBy] at h1
  exact (List.mem_filter.mp (brandFilter_subset h1)).1

theorem mem_opportunity_subset {df : List MergedRecord} {b : String} {lim : ℕ} {r : MergedRecord}
    (h : r ∈ get_opportunity_products df b lim) : r ∈ df := by
  unfold get_opportunity_products at h
  have h1 := List.mem_of_mem_take h
  rw [mem_sortBy] at h1
  exact (List.mem_filter.mp (brandFilter_subset h1)).1

theorem mem_top_subset {df : List MergedRecord} {b : String} {lim : ℕ} {r : MergedRecord}
    (h : r ∈ get_top_performers df b lim) : r ∈ df := by
  unfold get_top_performers at h
  have h1 := List.mem_of_mem_take h
  rw [mem_sortBy] at h1
  exact brandFilter_subset h1

theorem brandSummaryRow_brand (d : List MergedRecord) (hp : Bool) (b : String) :
    (brandSummaryRow d hp b).brand = b := by
  unfold brandSummaryRow
  by_cases h : hp = true <;> simp [h]

theorem mem_brand_summary {df : List MergedRecord} {s : BrandSummary}
    (h : s ∈ get_brand_summary df) :
    ∃ r ∈ df, r.brand ≠ "Regalect" ∧ s.brand = r.brand := by
  unfold get_brand_summary at h
  obtain ⟨b, hb, rfl⟩ := List.mem_map.mp h
  rw [mem_sortedKeys] at hb
  obtain ⟨r, hr, hrb⟩ := List.mem_map.mp hb
  have hf := List.mem_filter.mp hr
  exact ⟨r, hf.1, of_decide_eq_true hf.2, by rw [brandSummaryRow_brand, hrb]⟩

theorem mem_pv_ranking {df0 : List MergedRecord} {b : String} {lim : ℕ} {g : PvGroup}
    (h : g ∈ get_pv_ranking df0 b lim) :
    ∃ r ∈ brandFilter b df0, r.product_class_id = g.product_class_id ∧ 0 < r.views ∧
      g = { mkPvGroup g.product_class_id (classRows (brandFilter b df0) g.product_class_id) with
              skus := pvSkus (brandFilter b df0) g.product_class_id } := by
  unfold get_pv_ranking at h
  obtain ⟨g0, hg0, rfl⟩ := List.mem_map.mp h
  have h1 := List.mem_of_mem_take hg0
  rw [mem_sortBy] at h1
  obtain ⟨hgrp, hcond⟩ := List.mem_filter.mp h1
  obtain ⟨c, hc, rfl⟩ := List.mem_map.mp hgrp
  obtain ⟨r, hr, hrc⟩ := List.any_eq_true.mp hcond
  rw [Bool.and_eq_true, decide_eq_true_iff, decide_eq_true_iff] at hrc
  have hcls : (mkPvGroup c (classRows (brandFilter b df0) c)).product_class_id = c := rfl
  refine ⟨r, hr, ?_, hrc.2, ?_⟩
  · simpa [hcls] using hrc.1
  · simp [hcls]

theorem mem_anomalies_rising {df : List MergedRecord} {b : String} {lim : ℕ} {a : AnomalyItem}
    (h : a ∈ (get_anomalies df b lim).1) : ∃ r ∈ df, a.brand = r.brand := by
  unfold get_anomalies at h
  split at h
  · obtain ⟨r, hr, rfl⟩ := List.mem_map.mp h
    have h1 := List.mem_of_mem_take hr
    rw [mem_sortBy] at h1
    exact ⟨r, brandFilter_subset (List.mem_filter.mp h1).1, rfl⟩
  · simp at h

theorem mem_anomalies_warning {df : List MergedRecord} {b : String} {lim : ℕ} {a : AnomalyItem}
    (h : a ∈ (get_anomalies df b lim).2) : ∃ r ∈ df, a.brand = r.brand := by
  unfold get_anomalies at h
  split at h
  · obtain ⟨r, hr, rfl⟩ := List.mem_map.mp h
    have h1 := List.mem_of_mem_take hr
    rw [mem_sortBy] at h1
    exact ⟨r, brandFilter_subset (List.mem_filter.mp h1).1, rfl⟩
  · simp at h

theorem countP_eq_one_of_nodup {l : List String} (h : l.Nodup) {x : String} (hx : x ∈ l) :
    l.countP (fun b => decide (b = x)) = 1 := by
  induction l with
  | nil => simp at hx
  | cons a t ih =>
    rcases List.mem_cons.mp hx with h1 | hxt
    · subst h1
      rw [List.countP_cons_of_pos _ _ (by simp)]
      have ht : t.countP (fun b => decide (b = x)) = 0 := by
        rw [List.countP_eq_zero]
        intro b hb
        simp only [decide_eq_true_iff]
        rintro rfl
        exact (List.nodup_cons.mp h).1 hb
      omega
    · have hne : a ≠ x := by
        rintro rfl
        exact (List.nodup_cons.mp h).1 hxt
      rw [List.countP_cons_of_neg _ _ (by simp [hne])]
      exact ih (List.nodup_cons.mp h).2 hxt

theorem getPeriodSlot_set_ne {s : DataStore} {x : PeriodSlot} {pt pt2 : String}
    (h : pt2 ≠ pt) :
    getPeriodSlot (setPeriodSlot s pt x) pt2 = getPeriodSlot s pt2 := by
  by_cases h1 : pt = "yesterday"
  · subst h1
    simp [getPeriodSlot, setPeriodSlot, h]
  · by_cases h2 : pt = "weekly"
    · subst h2
      simp [getPeriodSlot, setPeriodSlot, h, h1]
    · by_cases h3 : pt = "3days"
      · subst h3
        simp [getPeriodSlot, setPeriodSlot, h, h1, h2]
      · simp [setPeriodSlot, h1, h2, h3]

theorem getPeriodSlot_set_same {s : DataStore} {x slot : PeriodSlot} {pt : String}
    (h : getPeriodSlot s pt = some slot) :
    getPeriodSlot (setPeriodSlot s pt x) pt = some x := by
  unfold getPeriodSlot at h
  unfold getPeriodSlot setPeriodSlot
  split_ifs at h ⊢ <;> simp_all

/-! Claim theorems. -/

/-- C1: the claim says `reconcile(periodType)` stores, as the period type's
current MergedRecord set, a table carrying the derived fields `cvr`,
`cart_rate`, `stock_efficiency` and the `is_problem`/`is_opportunity` flags.
The per-period reconcile `merge_and_analyze_for_period` actually stores the
bare left-join: every stored record has all five of those columns absent
(`none`), and the period switch copies exactly this underived table into the
active slot that every query reads.  This contradicts the specification and
breaks the query layer, which unconditionally reads those columns. -/
theorem c1_for_period_stores_underived (s : DataStore) (pt : String)
    (m : List MergedRecord) (s2 : DataStore)
    (h : merge_and_analyze_for_period s pt = (some m, s2)) :
    (∃ slot2, getPeriodSlot s2 pt = some slot2 ∧ slot2.merged_data = some m)
    ∧ (switch_period_data s2 pt).2.merged_data = some m
    ∧ ∀ r ∈ m, r.cvr = none ∧ r.cart_rate = none ∧ r.stock_efficiency = none
        ∧ r.is_problem = none ∧ r.is_opportunity = none := by
  unfold merge_and_analyze_for_period at h
  cases hslot : getPeriodSlot s pt with
  | none => rw [hslot] at h; simp at h
  | some slot =>
    rw [hslot] at h
    cases hpm : s.product_master with
    | none => rw [hpm] at h; simp at h
    | some pm =>
      rw [hpm] at h
      dsimp only at h
      by_cases hf : hasFacts slot.ga_sales = true
      · rw [if_pos hf] at h
        rw [Prod.mk.injEq, Option.some.injEq] at h
        obtain ⟨hm, hs2⟩ := h
        have hget : ∃ slot2, getPeriodSlot s2 pt = some slot2
            ∧ slot2.merged_data = some m := by
          refine ⟨_, by rw [← hs2]; exact getPeriodSlot_set_same hslot, ?_⟩
          by_cases hfp : hasFacts slot.ga_sales_previous = true <;> simp [hfp, hm]
        obtain ⟨slot2, hg, hmd⟩ := hget
        refine ⟨⟨slot2, hg, hmd⟩, ?_, ?_⟩
        · unfold switch_period_data
          rw [hg]
          exact hmd
        · intro r hr
          rw [← hm] at hr
          obtain ⟨p, hp, rfl⟩ := List.mem_map.mp hr
          simp [periodJoinRow, joinRow]
      · rw [if_neg hf] at h; simp at h

/-- C1 witness: concrete run on a one-product master with 3-day facts. -/
theorem c1_witness :
    merge_and_analyze_for_period c1store "3days" = (some c1m, c1s2)
    ∧ ((∃ slot2, getPeriodSlot c1s2 "3days" = some slot2 ∧ slot2.merged_data = some c1m)
      ∧ (switch_period_data c1s2 "3days").2.merged_data = some c1m
      ∧ ∀ r ∈ c1m, r.cvr = none ∧ r.cart_rate = none ∧ r.stock_efficiency = none
          ∧ r.is_problem = none ∧ r.is_opportunity = none) :=
  ⟨by decide, c1_for_period_stores_underived c1store "3days" c1m c1s2 (by decide)⟩

/-- C7: reconcile (`merge_and_analyze`) is a deterministic, idempotent batch
transform: it reads only the product master and the fact snapshots and writes
only `merged_data`, so running it again on the resulting store returns the
identical result and store — the same rows in the same order, hence the same
thresholds, flags and sort order (both runs are the same pure function of
unchanged inputs). -/
theorem c7_reconcile_idempotent (s : DataStore) :
    merge_and_analyze ((merge_and_analyze s).2) = merge_and_analyze s := by
  cases hpm : s.product_master with
  | none => simp [merge_and_analyze, hpm]
  | some pm =>
    by_cases hf : hasFacts s.ga_sales = true
    · simp [merge_and_analyze, hpm, hf]
    · simp [merge_and_analyze, hpm, hf]

/-- C9: switching the active period is a pure copy of the chosen slot into
the displayed fields (never a recompute — the copied values are whatever the
slot holds); replacing facts for one period type and running the per-period
reconcile touch no other period type's slot; and switching to weekly and then
back to 3-day delivers the 3-day slot's data unchanged. -/
theorem c9_period_isolation (s : DataStore) (pt pt2 brand : String) (sl : FactSlot)
    (batch : List FactRecord) (slot : PeriodSlot)
    (h1 : getPeriodSlot s pt = some slot) (h2 : pt2 ≠ pt) :
    switch_period_data s pt = (true,
      { s with
        ga_sales := slot.ga_sales
        ga_sales_previous := slot.ga_sales_previous
        channel_data := slot.channel_data
        merged_data := slot.merged_data
        merged_data_previous := slot.merged_data_previous
        current_period := pt })
    ∧ getPeriodSlot (set_period_facts s pt brand sl batch) pt2 = getPeriodSlot s pt2
    ∧ getPeriodSlot ((merge_and_analyze_for_period s pt).2) pt2 = getPeriodSlot s pt2
    ∧ (switch_period_data ((switch_period_data s "weekly").2) "3days").2.merged_data
        = s.pThreeDays.merged_data
    ∧ (switch_period_data ((switch_period_data s "weekly").2) "3days").2.ga_sales
        = s.pThreeDays.ga_sales
    ∧ getPeriodSlot ((switch_period_data ((switch_period_data s "weekly").2) "3days").2) "3days"
        = some s.pThreeDays := by
  refine ⟨?_, ?_, ?_, ?_, ?_, ?_⟩
  · unfold switch_period_data
    rw [h1]
  · unfold set_period_facts
    rw [h1]
    exact getPeriodSlot_set_ne h2
  · unfold merge_and_analyze_for_period
    rw [h1]
    cases hpm : s.product_master with
    | none => rfl
    | some pm =>
      by_cases hf : hasFacts slot.ga_sales = true
      · simp only [if_pos hf]
        exact getPeriodSlot_set_ne h2
      · simp only [if_neg hf]
  · rfl
  · rfl
  · rfl

/-- C9 witness: concrete store with distinguishable weekly and 3-day slots. -/
theorem c9_witness :
    getPeriodSlot c9store "weekly" = some c9store.pWeekly
    ∧ ("3days" : String) ≠ "weekly"
    ∧ (switch_period_data c9store "weekly" = (true,
        { c9store with
          ga_sales := c9store.pWeekly.ga_sales
          ga_sales_previous := c9store.pWeekly.ga_sales_previous
          channel_data := c9store.pWeekly.channel_data
          merged_data := c9store.pWeekly.merged_data
          merged_data_previous := c9store.pWeekly.merged_data_previous
          current_period := "weekly" })
      ∧ getPeriodSlot (set_period_facts c9store "weekly" "rady" FactSlot.current [factA]) "3days"
          = getPeriodSlot c9store "3days"
      ∧ getPeriodSlot ((merge_and_analyze_for_period c9store "weekly").2) "3days"
          = getPeriodSlot c9store "3days"
      ∧ (switch_period_data ((switch_period_data c9store "weekly").2) "3days").2.merged_data
          = c9store.pThreeDays.merged_data
      ∧ (switch_period_data ((switch_period_data c9store "weekly").2) "3days").2.ga_sales
          = c9store.pThreeDays.ga_sales
      ∧ getPeriodSlot
          ((switch_period_data ((switch_period_data c9store "weekly").2) "3days").2) "3days"
          = some c9store.pThreeDays) :=
  ⟨rfl, by decide,
    c9_period_isolation c9store "weekly" "3days" "rady" FactSlot.current [factA]
      c9store.pWeekly rfl (by decide)⟩

/-- C10: calling the period switch with a period type that is not one of
yesterday / weekly / 3days returns False and leaves the whole store — all
active fields included — unchanged: the validity check precedes every
mutation, so an invalid switch is atomic. -/
theorem c10_invalid_switch_atomic (s : DataStore) (pt : String)
    (h1 : pt ≠ "yesterday") (h2 : pt ≠ "weekly") (h3 : pt ≠ "3days") :
    switch_period_data s pt = (false, s) := by
  unfold switch_period_data getPeriodSlot
  simp [h1, h2, h3]

/-- C4: the merge output is a product-master-anchored left join.  Before the
brand exclusion every product's SKU appears in exactly one row of the flagged
table (given the master's unique-SKU invariant); a product with no matching
fact row gets 0 for all four numeric fact fields; and a SKU present only in
the facts yields no output record. -/
theorem c4_left_join_anchored (pm : List ProductRecord)
    (ga gaPrev : List (String × List FactRecord))
    (huniq : (pm.map ProductRecord.sku_id).Nodup) :
    (∀ p ∈ pm, ((flaggedTable pm ga).filter
        (fun r => decide (r.sku_id = p.sku_id))).length = 1)
    ∧ (∀ p ∈ pm, (∀ f ∈ combinedFacts ga, f.sku_id ≠ p.sku_id) →
        ∀ r ∈ flaggedTable pm ga, r.sku_id = p.sku_id →
          r.views = 0 ∧ r.add_to_cart = 0 ∧ r.purchases = 0 ∧ r.revenue = 0)
    ∧ (∀ sku : String, (∀ p ∈ pm, p.sku_id ≠ sku) →
        ∀ r ∈ mergeResult pm ga gaPrev, r.sku_id ≠ sku) := by
  refine ⟨?_, ?_, ?_⟩
  · intro p hp
    have hcount := countP_eq_one_of_nodup huniq (List.mem_map_of_mem ProductRecord.sku_id hp)
    rw [List.countP_map] at hcount
    rw [← List.countP_eq_length_filter]
    unfold flaggedTable derivedTable
    rw [List.map_map, List.countP_map]
    simpa [Function.comp, addFlags, addDerived, urlRow, joinRow] using hcount
  · intro p hp hnone r hr hsku
    obtain ⟨q, hq, rfl⟩ := mem_flaggedTable hr
    have hq_sku : q.sku_id = p.sku_id := by
      simpa [addFlags, addDerived, urlRow, joinRow] using hsku
    have hempty : (combinedFacts ga).filter (fun x => decide (x.sku_id = q.sku_id)) = [] := by
      rw [List.filter_eq_nil_iff]
      intro f hf
      simp only [decide_eq_true_iff]
      rw [hq_sku]
      exact hnone f hf
    refine ⟨?_, ?_, ?_, ?_⟩ <;>
      simp [addFlags, addDerived, urlRow, joinRow, factSum, hempty]
  · intro sku hnot r hr
    obtain ⟨p, hp, hre, -⟩ := mem_mergeResult hr
    have hsk : r.sku_id = p.sku_id := by
      rw [hre]
      by_cases hpv : hasFacts gaPrev = true <;>
        simp [mergeRow, hpv, addDeltas, addFlags, addDerived, urlRow, joinRow]
    rw [hsk]
    exact hnot p hp

/-- C4 witness: two-product master, facts for one SKU plus an orphan SKU. -/
theorem c4_witness :
    (c4pm.map ProductRecord.sku_id).Nodup
    ∧ ((∀ p ∈ c4pm, ((flaggedTable c4pm c4ga).filter
          (fun r => decide (r.sku_id = p.sku_id))).length = 1)
      ∧ (∀ p ∈ c4pm, (∀ f ∈ combinedFacts c4ga, f.sku_id ≠ p.sku_id) →
          ∀ r ∈ flaggedTable c4pm c4ga, r.sku_id = p.sku_id →
            r.views = 0 ∧ r.add_to_cart = 0 ∧ r.purchases = 0 ∧ r.revenue = 0)
      ∧ (∀ sku : String, (∀ p ∈ c4pm, p.sku_id ≠ sku) →
          ∀ r ∈ mergeResult c4pm c4ga [], r.sku_id ≠ sku)) :=
  ⟨by decide, c4_left_join_anchored c4pm c4ga [] (by decide)⟩

/-- C5: when previous facts exist, every output record carries per-SKU
previous sums and deltas: `delta_X = X - prev_X`; `delta_X_pct` is
`(X - prev_X) / prev_X * 100` when `prev_X > 0`, exactly 100 when
`prev_X = 0 < X`, else exactly 0; `prev_cvr` is zero-guarded the same way and
`delta_cvr = cvr - prev_cvr` is a plain difference of the two percentages. -/
theorem c5_record_deltas (pm : List ProductRecord)
    (ga gaPrev : List (String × List FactRecord)) (r : MergedRecord)
    (hprev : hasFacts gaPrev = true) (h : r ∈ mergeResult pm ga gaPrev) :
    r.prev_views = some (factSum (combinedFacts gaPrev) r.sku_id FactRecord.views)
    ∧ r.prev_add_to_cart = some (factSum (combinedFacts gaPrev) r.sku_id FactRecord.add_to_cart)
    ∧ r.prev_purchases = some (factSum (combinedFacts gaPrev) r.sku_id FactRecord.purchases)
    ∧ r.prev_revenue = some (factSum (combinedFacts gaPrev) r.sku_id FactRecord.revenue)
    ∧ r.delta_views = some (r.views - r.prev_views.getD 0)
    ∧ r.delta_add_to_cart = some (r.add_to_cart - r.prev_add_to_cart.getD 0)
    ∧ r.delta_purchases = some (r.purchases - r.prev_purchases.getD 0)
    ∧ r.delta_revenue = some (r.revenue - r.prev_revenue.getD 0)
    ∧ r.delta_views_pct = some (if 0 < r.prev_views.getD 0 then
        (r.views - r.prev_views.getD 0) / r.prev_views.getD 0 * 100
        else if 0 < r.views then 100 else 0)
    ∧ r.delta_add_to_cart_pct = some (if 0 < r.prev_add_to_cart.getD 0 then
        (r.add_to_cart - r.prev_add_to_cart.getD 0) / r.prev_add_to_cart.getD 0 * 100
        else if 0 < r.add_to_cart then 100 else 0)
    ∧ r.delta_purchases_pct = some (if 0 < r.prev_purchases.getD 0 then
        (r.purchases - r.prev_purchases.getD 0) / r.prev_purchases.getD 0 * 100
        else if 0 < r.purchases then 100 else 0)
    ∧ r.delta_revenue_pct = some (if 0 < r.prev_revenue.getD 0 then
        (r.revenue - r.prev_revenue.getD 0) / r.prev_revenue.getD 0 * 100
        else if 0 < r.revenue then 100 else 0)
    ∧ r.prev_cvr = some (if 0 < r.prev_views.getD 0 then
        r.prev_purchases.getD 0 / r.prev_views.getD 0 * 100 else 0)
    ∧ r.delta_cvr = some (r.cvr.getD 0 - r.prev_cvr.getD 0) := by
  obtain ⟨p, hp, rfl, -⟩ := mem_mergeResult h
  refine ⟨?_, ?_, ?_, ?_, ?_, ?_, ?_, ?_, ?_, ?_, ?_, ?_, ?_, ?_⟩ <;>
    simp [mergeRow, hprev, addDeltas, addFlags, addDerived, urlRow, joinRow]

/-- C5 witness: the spec scenario (prev views 100 → views 200, revenue
unchanged) on a concrete master and fact batches. -/
theorem c5_witness :
    hasFacts c5prev = true ∧ c5r ∈ mergeResult c5pm c5ga c5prev
    ∧ c5r.prev_views = some (factSum (combinedFacts c5prev) c5r.sku_id FactRecord.views)
    ∧ c5r.delta_views = some (c5r.views - c5r.prev_views.getD 0)
    ∧ c5r.delta_views_pct = some 100
    ∧ c5r.delta_revenue_pct = some 0
    ∧ c5r.delta_cvr = some (c5r.cvr.getD 0 - c5r.prev_cvr.getD 0) := by
  have h := c5_record_deltas c5pm c5ga c5prev c5r (by decide) (by decide)
  exact ⟨by decide, by decide, h.1, h.2.2.2.2.1, by decide, by decide, h.2.2.2.2.2.2.2.2.2.2.2.2.2⟩

/-- C6: every record produced by the merge carries all three derived metrics
with the zero-guarded formulas — `cvr` and `cart_rate` divide by `views` only
when it is strictly positive and are exactly 0 when `views = 0`, and
`stock_efficiency` likewise against `total_stock` — so the guarded rational
formulas are total and no undefined value reaches the output. -/
theorem c6_zero_guard (pm : List ProductRecord)
    (ga gaPrev : List (String × List FactRecord)) (r : MergedRecord)
    (h : r ∈ mergeResult pm ga gaPrev) :
    r.cvr = some (if 0 < r.views then r.purchases / r.views * 100 else 0)
    ∧ r.cart_rate = some (if 0 < r.views then r.add_to_cart / r.views * 100 else 0)
    ∧ r.stock_efficiency = some (if 0 < r.total_stock then r.revenue / r.total_stock else 0)
    ∧ (r.views = 0 → r.cvr = some 0 ∧ r.cart_rate = some 0)
    ∧ (r.total_stock = 0 → r.stock_efficiency = some 0) := by
  obtain ⟨p, hp, hre, -⟩ := mem_mergeResult h
  have hcvr : r.cvr = some (if 0 < r.views then r.purchases / r.views * 100 else 0) := by
    rw [hre]
    by_cases hpv : hasFacts gaPrev = true <;>
      simp [mergeRow, hpv, addDeltas, addFlags, addDerived, urlRow, joinRow]
  have hcart : r.cart_rate = some (if 0 < r.views then r.add_to_cart / r.views * 100 else 0) := by
    rw [hre]
    by_cases hpv : hasFacts gaPrev = true <;>
      simp [mergeRow, hpv, addDeltas, addFlags, addDerived, urlRow, joinRow]
  have hse : r.stock_efficiency
      = some (if 0 < r.total_stock then r.revenue / r.total_stock else 0) := by
    rw [hre]
    by_cases hpv : hasFacts gaPrev = true <;>
      simp [mergeRow, hpv, addDeltas, addFlags, addDerived, urlRow, joinRow]
  refine ⟨hcvr, hcart, hse, ?_, ?_⟩
  · intro h0
    rw [hcvr, hcart]
    simp [h0]
  · intro h0
    rw [hse]
    simp [h0]

/-- C6 witness: the factless zero-stock product row has cvr, cart rate and
stock efficiency all exactly 0. -/
theorem c6_witness :
    c6r ∈ mergeResult c5pm c5ga []
    ∧ c6r.views = 0 ∧ c6r.total_stock = 0
    ∧ c6r.cvr = some (if 0 < c6r.views then c6r.purchases / c6r.views * 100 else 0)
    ∧ c6r.cvr = some 0 ∧ c6r.cart_rate = some 0 ∧ c6r.stock_efficiency = some 0 := by
  have h := c6_zero_guard c5pm c5ga [] c6r (by decide)
  refine ⟨by decide, by decide, by decide, h.1, ?_, ?_, ?_⟩
  · exact (h.2.2.2.1 (by decide)).1
  · exact (h.2.2.2.1 (by decide)).2
  · exact h.2.2.2.2 (by decide)

/-- C2: the classification flags stored by reconcile are computed against the
percentile thresholds of the full joined table — `stockThreshold`,
`revenueThreshold` and `viewsThreshold` range over `derivedTable`, which still
contains the excluded brand's rows — while every output record, and every
record of every downstream view over the output (problem, opportunity, top
performer, PV ranking, brand summary, anomalies), has brand ≠ Regalect.
The concrete conjunct exhibits an input where removing the Regalect row
would change the stock threshold applied to the remaining records. -/
theorem c2_thresholds_before_exclusion (pm : List ProductRecord)
    (ga gaPrev : List (String × List FactRecord)) (b : String) (lim : ℕ) :
    (∀ r ∈ mergeResult pm ga gaPrev, r.brand ≠ "Regalect"
      ∧ r.is_problem = some (decide (stockThreshold pm ga ≤ r.total_stock)
          && decide (r.revenue ≤ revenueThreshold pm ga))
      ∧ r.is_opportunity = some (decide (viewsThreshold pm ga ≤ r.views)
          && decide (r.total_stock ≤ 5) && decide (r.purchases < r.views * (5 / 100))))
    ∧ stockThreshold c2pm []
        ≠ stockThreshold (c2pm.filter (fun p => decide (p.brand ≠ "Regalect"))) []
    ∧ (∀ r ∈ get_problem_products (mergeResult pm ga gaPrev) b lim, r.brand ≠ "Regalect")
    ∧ (∀ r ∈ get_opportunity_products (mergeResult pm ga gaPrev) b lim, r.brand ≠ "Regalect")
    ∧ (∀ r ∈ get_top_performers (mergeResult pm ga gaPrev) b lim, r.brand ≠ "Regalect")
    ∧ (∀ s ∈ get_brand_summary (mergeResult pm ga gaPrev), s.brand ≠ "Regalect")
    ∧ (∀ g ∈ get_pv_ranking (mergeResult pm ga gaPrev) b lim, g.brand ≠ "Regalect")
    ∧ (∀ a ∈ (get_anomalies (mergeResult pm ga gaPrev) b lim).1, a.brand ≠ "Regalect")
    ∧ (∀ a ∈ (get_anomalies (mergeResult pm ga gaPrev) b lim).2, a.brand ≠ "Regalect") := by
  have hbrands : ∀ r ∈ mergeResult pm ga gaPrev, r.brand ≠ "Regalect" := by
    intro r hr
    exact (mem_mergeResult hr).choose_spec.2.2
  refine ⟨?_, by decide, ?_, ?_, ?_, ?_, ?_, ?_, ?_⟩
  · intro r hr
    obtain ⟨p, hp, hre, hbrand⟩ := mem_mergeResult hr
    refine ⟨hbrand, ?_, ?_⟩
    · rw [hre]
      by_cases hpv : hasFacts gaPrev = true <;>
        simp [mergeRow, hpv, addDeltas, addFlags, addDerived, urlRow, joinRow]
    · rw [hre]
      by_cases hpv : hasFacts gaPrev = true <;>
        simp [mergeRow, hpv, addDeltas, addFlags, addDerived, urlRow, joinRow]
  · intro r hr
    exact hbrands r (mem_problem_subset hr)
  · intro r hr
    exact hbrands r (mem_opportunity_subset hr)
  · intro r hr
    exact hbrands r (mem_top_subset hr)
  · intro s hs
    obtain ⟨r, hr, hrb, hsb⟩ := mem_brand_summary hs
    rw [hsb]
    exact hrb
  · intro g hg
    obtain ⟨r, hr, hrc, hrv, hge⟩ := mem_pv_ranking hg
    have hrgrp : r ∈ classRows (brandFilter b (mergeResult pm ga gaPrev)) g.product_class_id :=
      List.mem_filter.mpr ⟨hr, by simp [hrc]⟩
    obtain ⟨x, hx, hxe⟩ :=
      head_getD_map_mem MergedRecord.brand "" (List.ne_nil_of_mem hrgrp)
    have hgb : g.brand
        = (((classRows (brandFilter b (mergeResult pm ga gaPrev)) g.product_class_id).map
            MergedRecord.brand).head?).getD "" := by
      conv_lhs => rw [hge]
      rfl
    rw [hgb, hxe]
    exact hbrands x (brandFilter_subset (List.mem_filter.mp hx).1)
  · intro a ha
    obtain ⟨r, hr, hab⟩ := mem_anomalies_rising ha
    rw [hab]
    exact hbrands r hr
  · intro a ha
    obtain ⟨r, hr, hab⟩ := mem_anomalies_warning ha
    rw [hab]
    exact hbrands r hr

/-- C2 witness: the concrete rady record of `c2pm` carries flags computed
against the full-table thresholds. -/
theorem c2_witness :
    c2r ∈ mergeResult c2pm c2ga []
    ∧ c2r.brand ≠ "Regalect"
    ∧ c2r.is_problem = some (decide (stockThreshold c2pm c2ga ≤ c2r.total_stock)
        && decide (c2r.revenue ≤ revenueThreshold c2pm c2ga)) := by
  have h := (c2_thresholds_before_exclusion c2pm c2ga [] "all" 50).1 c2r (by decide)
  exact ⟨by decide, h.1, h.2.1⟩

/-- C3 counterexample: a brand whose previous revenue total is 0 and whose
current total is 500 gets `delta_revenue_pct = 0`, not the 100 the claim
(step-9 zero-guard) demands — the brand-summary guard's else-branch is 0. -/
theorem c3_counterexample :
    (get_brand_summary c3df).map
      (fun s => (s.brand, s.total_revenue, s.prev_total_revenue, s.delta_revenue_pct))
      = [("rady", (500 : ℚ), some (0 : ℚ), some (0 : ℚ))] := by decide

/-- C3 amended: brand-summary totals are sums over the brand's records,
`overall_cvr` is recomputed from those totals, and each delta-pct uses the
guard `if prev > 0 then (cur - prev) / prev * 100 else 0` — returning 0, not
100, when the previous total is 0 even if the current total is positive. -/
theorem c3_brand_summary_deltas (df : List MergedRecord) (s : BrandSummary)
    (hs : s ∈ get_brand_summary df) :
    s.total_revenue = (((df.filter (fun r => decide (r.brand ≠ "Regalect"))).filter
        (fun r => decide (r.brand = s.brand))).map MergedRecord.revenue).sum
    ∧ s.total_views = (((df.filter (fun r => decide (r.brand ≠ "Regalect"))).filter
        (fun r => decide (r.brand = s.brand))).map MergedRecord.views).sum
    ∧ s.total_purchases = (((df.filter (fun r => decide (r.brand ≠ "Regalect"))).filter
        (fun r => decide (r.brand = s.brand))).map MergedRecord.purchases).sum
    ∧ s.total_add_to_cart = (((df.filter (fun r => decide (r.brand ≠ "Regalect"))).filter
        (fun r => decide (r.brand = s.brand))).map MergedRecord.add_to_cart).sum
    ∧ s.overall_cvr
        = (if 0 < s.total_views then s.total_purchases / s.total_views * 100 else 0)
    ∧ (∀ pr, s.prev_total_revenue = some pr →
        s.delta_revenue = some (s.total_revenue - pr)
        ∧ s.delta_revenue_pct
            = some (if 0 < pr then (s.total_revenue - pr) / pr * 100 else 0))
    ∧ (∀ pv, s.prev_total_views = some pv →
        s.delta_views = some (s.total_views - pv)
        ∧ s.delta_views_pct
            = some (if 0 < pv then (s.total_views - pv) / pv * 100 else 0))
    ∧ (∀ pp, s.prev_total_purchases = some pp →
        s.delta_purchases = some (s.total_purchases - pp)
        ∧ s.delta_purchases_pct
            = some (if 0 < pp then (s.total_purchases - pp) / pp * 100 else 0))
    ∧ (∀ pc, s.prev_total_add_to_cart = some pc →
        s.delta_add_to_cart = some (s.total_add_to_cart - pc)
        ∧ s.delta_add_to_cart_pct
            = some (if 0 < pc then (s.total_add_to_cart - pc) / pc * 100 else 0)) := by
  simp only [get_brand_summary] at hs
  obtain ⟨b, hb, rfl⟩ := List.mem_map.mp hs
  rw [brandSummaryRow_brand]
  by_cases hp : (df.filter (fun r => decide (r.brand ≠ "Regalect"))).any
      (fun r => r.prev_revenue.isSome) = true
  · rw [hp]
    simp [brandSummaryRow, summaryPct]
  · rw [Bool.not_eq_true] at hp
    rw [hp]
    simp [brandSummaryRow, summaryPct]

/-- C3 witness: the amended rule applied to the concrete one-brand table with
previous total 0 and current total 500. -/
theorem c3_witness :
    c3s ∈ get_brand_summary c3df
    ∧ c3s.prev_total_revenue = some 0
    ∧ c3s.total_revenue = 500
    ∧ c3s.delta_revenue = some (c3s.total_revenue - 0)
    ∧ c3s.delta_revenue_pct
        = some (if (0 : ℚ) < 0 then (c3s.total_revenue - 0) / 0 * 100 else 0) := by
  have h := c3_brand_summary_deltas c3df c3s (by decide)
  have h6 := h.2.2.2.2.2.1 0 (by decide)
  exact ⟨by decide, by decide, by decide, h6.1, h6.2⟩

/-- C8 counterexample: over `c8df` (one product class whose first SKU has 0
views and whose second has 5) the PV ranking keeps the group, yet the
emitted representative `views` value is 0 — refuting the claim that only
groups with positive views are kept. -/
theorem c8_counterexample :
    (get_pv_ranking c8df "all" 50).map (fun g => (g.product_class_id, g.views))
      = [("P1", 0)] := by decide

/-- C8 amended: PV-ranking groups by `product_class_id`; within an emitted
group, `views` is the first row's representative value while add_to_cart,
purchases, revenue and total_stock are sums; a group is kept exactly when it
contains at least one SKU row with positive views (its emitted first-SKU
views value may still be 0); the group CVR is recomputed from the grouped
values as summed purchases over the representative views; and the nested
per-SKU list is sorted descending by purchases, each entry built from one
group row with its own zero-guarded per-SKU CVR and delta fields. -/
theorem c8_pv_ranking_grouping (df0 : List MergedRecord) (b : String) (lim : ℕ)
    (g : PvGroup) (hg : g ∈ get_pv_ranking df0 b lim) :
    (∃ r ∈ classRows (brandFilter b df0) g.product_class_id, 0 < r.views)
    ∧ g.views = (((classRows (brandFilter b df0) g.product_class_id).map
        MergedRecord.views).head?).getD 0
    ∧ g.add_to_cart = ((classRows (brandFilter b df0) g.product_class_id).map
        MergedRecord.add_to_cart).sum
    ∧ g.purchases = ((classRows (brandFilter b df0) g.product_class_id).map
        MergedRecord.purchases).sum
    ∧ g.revenue = ((classRows (brandFilter b df0) g.product_class_id).map
        MergedRecord.revenue).sum
    ∧ g.total_stock = ((classRows (brandFilter b df0) g.product_class_id).map
        MergedRecord.total_stock).sum
    ∧ g.cvr = pdRatio100 g.purchases g.views
    ∧ g.skus.Pairwise (fun a b => b.purchases ≤ a.purchases)
    ∧ (∀ sk ∈ g.skus, ∃ r ∈ classRows (brandFilter b df0) g.product_class_id,
        sk = pvSkuOf r ∧ sk.cvr = (if 0 < r.views then r.purchases / r.views * 100 else 0))
    ∧ (∀ r ∈ classRows (brandFilter b df0) g.product_class_id, pvSkuOf r ∈ g.skus) := by
  obtain ⟨r, hr, hrc, hrv, hge⟩ := mem_pv_ranking hg
  have hrgrp : r ∈ classRows (brandFilter b df0) g.product_class_id :=
    List.mem_filter.mpr ⟨hr, by simp [hrc]⟩
  have hviews : g.views = (((classRows (brandFilter b df0) g.product_class_id).map
      MergedRecord.views).head?).getD 0 := by
    conv_lhs => rw [hge]
    rfl
  have hpurch : g.purchases = ((classRows (brandFilter b df0) g.product_class_id).map
      MergedRecord.purchases).sum := by
    conv_lhs => rw [hge]
    rfl
  have hskus : g.skus = pvSkus (brandFilter b df0) g.product_class_id := by
    conv_lhs => rw [hge]
  refine ⟨⟨r, hrgrp, hrv⟩, hviews, ?_, hpurch, ?_, ?_, ?_, ?_, ?_, ?_⟩
  · conv_lhs => rw [hge]
    rfl
  · conv_lhs => rw [hge]
    rfl
  · conv_lhs => rw [hge]
    rfl
  · rw [hpurch, hviews]
    conv_lhs => rw [hge]
    rfl
  · rw [hskus]
    unfold pvSkus
    refine List.pairwise_map.mpr ?_
    refine pairwise_sortBy ?_ ?_ ?_ _
    · intro x y hxy
      exact pyInt_mono (of_decide_eq_true hxy)
    · intro x y hxy
      exact pyInt_mono (le_of_not_le (by simpa using hxy))
    · intro x y z h1 h2
      exact le_trans h2 h1
  · intro sk hsk
    rw [hskus] at hsk
    unfold pvSkus at hsk
    obtain ⟨r0, hr0, rfl⟩ := List.mem_map.mp hsk
    rw [mem_sortBy] at hr0
    exact ⟨r0, hr0, rfl, rfl⟩
  · intro r0 hr0
    rw [hskus]
    unfold pvSkus
    exact List.mem_map.mpr ⟨r0, (mem_sortBy r0 _).mpr hr0, rfl⟩

/-- C8 witness: the amended grouping rules evaluated on the concrete
two-SKU class. -/
theorem c8_witness :
    c8g ∈ get_pv_ranking c8df "all" 50
    ∧ c8g.views = (((classRows (brandFilter "all" c8df) c8g.product_class_id).map
        MergedRecord.views).head?).getD 0
    ∧ c8g.purchases = ((classRows (brandFilter "all" c8df) c8g.product_class_id).map
        MergedRecord.purchases).sum
    ∧ c8g.cvr = pdRatio100 c8g.purchases c8g.views
    ∧ c8g.skus.Pairwise (fun a b => b.purchases ≤ a.purchases) := by
  have h := c8_pv_ranking_grouping c8df "all" 50 c8g (by decide)
  exact ⟨by decide, h.2.1, h.2.2.2.1, h.2.2.2.2.2.2.1, h.2.2.2.2.2.2.2.1⟩

/-- C10 witness: switching to "monthly" fails and changes nothing. -/
theorem c10_witness :
    (("monthly" : String) ≠ "yesterday" ∧ ("monthly" : String) ≠ "weekly"
      ∧ ("monthly" : String) ≠ "3days")
    ∧ switch_period_data baseStore "monthly" = (false, baseStore) :=
  ⟨⟨by decide, by decide, by decide⟩,
    c10_invalid_switch_atomic baseStore "monthly" (by decide) (by decide) (by decide)⟩

end Analyzeap
